import Mathlib

deriving instance DecidableEq for Except

/-!
# MangaRecon recommendation engine — shallow embedding and verification

This file embeds the recommendation engine of the MangaRecon repository
(`backend/recommendation/core.py`, `backend/recommendation/generator.py`,
`backend/services/recommendation_service.py`,
`backend/repositories/recommendation_repo.py`, `backend/cache/redis.py`)
as executable Lean definitions and proves properties of them.

Modelling conventions:
* SQL numerics (`Numeric(2,1)`) and Python `Decimal`/`float` arithmetic are
  modelled exactly over `ℚ`; Python `round` (both `round(x)` and
  `round(x, 2)`) is banker's rounding (round half to even), modelled exactly.
* The relational store is a record of join-table row lists and a manga table;
  a query is a pure filter over those lists, returning rows in table order.
* `SQLAlchemyError` / data-access failure is modelled by a boolean `fails`
  flag on the database handle: when set, every `session.execute` in the
  request raises.  `try/except` blocks translate to a test of that flag.
* Python dicts with a possibly-absent key are modelled with `Option` fields
  (`none` = key absent); reading an absent key is a `KeyError` value.
* Python `set` iteration order is unspecified (CPython hash-table order);
  the one place it is observable, `list({...})` in
  `get_manga_ids_in_user_collection`, is modelled by an uninterpreted
  reordering `set_iter` carried by the database handle, so nothing is
  proved about that order.
* Python numeric types are tracked where they change behaviour:
  `demo_score` is a `float` and a positive `rating_score` a `Decimal`
  (values of the `Numeric(2,1)` column), so the score summation at
  `core.py` line 235 raises `TypeError` (float + Decimal) whenever
  `rating_score > 0`; likewise the generator's calls
  `core.get_candidate_manga(..., db=db)` pass the keyword `db` to a
  function whose parameter is named `session`, which raises `TypeError`
  at the call.  Both are modelled as an explicit `typeError` outcome.
* `list.sort` / `sorted` is Python's stable sort, modelled by a stable
  insertion sort (`pySort`) parameterised by the strict key comparison.
-/

namespace MangaRecon

/-- Publication date (`Manga.published_date`, a SQL `Date`); the engine only
ever reads the `.year` component. -/
structure PDate where
  year : Int
deriving DecidableEq

/-- A row of the `manga` table (`backend/db/models/manga.py`), restricted to
the columns the recommendation engine reads. `external_average_rating` is a
nullable `Numeric(2,1)` column, `published_date` a nullable `Date`. -/
structure Manga where
  manga_id : Int
  title : String
  external_average_rating : Option ℚ
  published_date : Option PDate
  cover_image_url : String
deriving DecidableEq

/-- The relational state the engine reads, plus the failure flag modelling a
data-access (`SQLAlchemyError`) outage for the duration of a request.
Join tables are `(manga_id, attribute_id)` pairs
(`backend/db/models/join_tables.py`); `collection` holds
`(user_id, collection_id)` ownership rows; `manga_collection` holds
`(collection_id, manga_id)` membership rows.  `set_iter` is an
uninterpreted reordering standing for CPython's unspecified set iteration
order: `list({...})` is modelled as `set_iter` applied to the
(first-occurrence) deduplicated contents, and no theorem constrains it. -/
structure DB where
  manga_genre : List (Int × Int)
  manga_tag : List (Int × Int)
  manga_demographic : List (Int × Int)
  manga_author : List (Int × Int)
  manga : List Manga
  collection : List (String × Int)
  manga_collection : List (Int × Int)
  fails : Bool
  set_iter : List Int → List Int

/-- A Python `collections.Counter` over attribute ids: an insertion-ordered
association list from id to count. -/
abbrev Counter := List (Int × Nat)

/-- Add one occurrence of `x` to a counter (`Counter.update` with one item). -/
def counterAdd (c : Counter) (x : Int) : Counter :=
  if c.any (fun p => p.1 == x) then
    c.map (fun p => if p.1 == x then (p.1, p.2 + 1) else p)
  else c ++ [(x, 1)]

/-- `Counter.update(xs)`: tally every element of `xs`. -/
def counterUpdate (c : Counter) (xs : List Int) : Counter :=
  xs.foldl counterAdd c

/-- `counter.get(x, 0)`: zero-default count lookup. -/
def counterGet (c : Counter) (x : Int) : Nat :=
  ((c.find? (fun p => p.1 == x)).map Prod.snd).getD 0

/-- `list(counter.keys())` in insertion order. -/
def counterKeys (c : Counter) : List Int :=
  c.map Prod.fst

/-- Build a Python `set` as a first-insertion-ordered duplicate-free list.
This is also exactly the `seen`-set dedup loop of
`get_recommendations_for_query_list_page`
(`backend/services/recommendation_service.py`). -/
def pySetDedup (xs : List Int) : List Int :=
  xs.foldl (fun acc x => if acc.contains x then acc else acc ++ [x]) []

/-- `SELECT attribute_id FROM rows WHERE manga_id IN manga_ids`:
the attribute ids of all join rows whose manga id is in `manga_ids`,
in table order. -/
def fetchAttrIds (rows : List (Int × Int)) (manga_ids : List Int) : List Int :=
  (rows.filter (fun p => manga_ids.contains p.1)).map Prod.snd

/-- `SELECT ... FROM manga WHERE manga_id IN manga_ids` in table order. -/
def mangaRowsIn (db : DB) (manga_ids : List Int) : List Manga :=
  db.manga.filter (fun m => manga_ids.contains m.manga_id)

/-- The attribute ids joined to one manga id (the scorer's
`meta[key].get(manga_id, set())`, deduplicated as a set). -/
def mangaAttrSet (rows : List (Int × Int)) (mid : Int) : List Int :=
  pySetDedup ((rows.filter (fun p => p.1 == mid)).map Prod.snd)

/-- The metadata-profile dict built by `get_metadata_profile_for_collection`
(`backend/recommendation/core.py`).  The `years` field is an `Option`
because the error-fallback dict literal in the `except` branch omits the
`"years"` key: `none` models the key being absent. -/
structure ProfileDict where
  genres : Counter
  tags : Counter
  demographics : Counter
  authors : List Int
  external_ratings : List ℚ
  years : Option (List Int)
deriving DecidableEq

/-- The dict returned by the `except SQLAlchemyError` branch of
`get_metadata_profile_for_collection`: all aggregates empty and no
`"years"` key at all. -/
def fallback_profile : ProfileDict :=
  { genres := [], tags := [], demographics := [], authors := [],
    external_ratings := [], years := none }

/-- `get_metadata_profile_for_collection(manga_ids, session)`
(`backend/recommendation/core.py`, lines 52–115): bulk-fetch genre, tag,
demographic and author memberships and rating/year aggregates for the seed
ids; on a data-access error, catch it and return `fallback_profile`. -/
def get_metadata_profile_for_collection (db : DB) (manga_ids : List Int) :
    ProfileDict :=
  if db.fails then fallback_profile
  else
    { genres := counterUpdate [] (fetchAttrIds db.manga_genre manga_ids),
      tags := counterUpdate [] (fetchAttrIds db.manga_tag manga_ids),
      demographics :=
        counterUpdate [] (fetchAttrIds db.manga_demographic manga_ids),
      authors := pySetDedup (fetchAttrIds db.manga_author manga_ids),
      external_ratings :=
        (mangaRowsIn db manga_ids).filterMap (·.external_average_rating),
      years :=
        some ((mangaRowsIn db manga_ids).filterMap
          (fun m => m.published_date.map (·.year))) }

/-- `get_manga_ids_in_user_collection(user_id, collection_id, session)`
(`backend/recommendation/core.py`, lines 21–50): verify ownership, then
return the deduplicated manga ids of the collection via
`list({row[0] for row in ...})`.  CPython iterates the set in hash-table
order, which is unspecified; the model applies the handle's uninterpreted
`set_iter` to the deduplicated contents.  On an unauthorized/missing
collection or a data-access error, return `[]`. -/
def get_manga_ids_in_user_collection (db : DB) (user_id : String)
    (collection_id : Int) : List Int :=
  if db.fails then []
  else if db.collection.any
      (fun p => p.1 == user_id && p.2 == collection_id) then
    db.set_iter (pySetDedup
      ((db.manga_collection.filter (fun p => p.1 == collection_id)).map
        Prod.snd))
  else []

/-- `get_candidate_manga(excluded_ids, genre_ids, tag_ids, demo_ids, session,
max_candidates)` (`backend/recommendation/core.py`, lines 118–162): distinct
manga not in `excluded_ids`, carrying a non-null external rating and sharing
at least one genre, tag or demographic with the given id lists (outer joins
with an OR filter), limited to `max_candidates` rows; on any exception,
catch it and return `[]`. -/
def get_candidate_manga (db : DB) (excluded_ids genre_ids tag_ids demo_ids :
    List Int) (max_candidates : Nat) : List Manga :=
  if db.fails then []
  else
    (db.manga.filter (fun m =>
      !(excluded_ids.contains m.manga_id) &&
      ((mangaAttrSet db.manga_genre m.manga_id).any
          (fun g => genre_ids.contains g) ||
       (mangaAttrSet db.manga_tag m.manga_id).any
          (fun t => tag_ids.contains t) ||
       (mangaAttrSet db.manga_demographic m.manga_id).any
          (fun d => demo_ids.contains d)) &&
      m.external_average_rating.isSome)).take max_candidates

/-- Python `round` to an integer: banker's rounding (round half to even),
exactly on rationals. -/
def pyRound (q : ℚ) : Int :=
  if q - (⌊q⌋ : ℚ) < 1/2 then ⌊q⌋
  else if q - (⌊q⌋ : ℚ) > 1/2 then ⌊q⌋ + 1
  else if ⌊q⌋ % 2 = 0 then ⌊q⌋ else ⌊q⌋ + 1

/-- Python `round(q, 2)`: round to 2 decimal places, half to even. -/
def pyRound2 (q : ℚ) : ℚ :=
  (pyRound (q * 100) : ℚ) / 100

/-- Python truthiness of a nullable numeric (`x` in an `if`/`and` position):
truthy iff present and nonzero. -/
def truthyNum : Option ℚ → Bool
  | none => false
  | some q => decide (q ≠ 0)

/-- Python errors the engine can raise, together with the domain errors of
`backend/utils/domain_exceptions.py` (message text elided, codes kept). -/
inductive EngineError where
  | notFound (code : String)
  | badRequest (code : String)
  | dataAccessError
  | keyError (key : String)
  | typeError
deriving DecidableEq

/-- The `details` dict of a scored recommendation: the six unrounded
per-term feature scores. -/
structure ScoreDetails where
  genre_score : ℚ
  tag_score : ℚ
  demo_score : ℚ
  author_score : ℚ
  rating_score : ℚ
  year_score : ℚ
deriving DecidableEq

/-- One scored recommendation dict as built by `get_scored_recommendations`
(`backend/recommendation/core.py`, lines 237–251). -/
structure ScoredRec where
  manga_id : Int
  title : String
  external_average_rating : Option ℚ
  cover_image_url : String
  score : ℚ
  details : ScoreDetails
deriving DecidableEq

/-- Stable insertion of `x` into `l`: `x` is placed before the first element
`y` for which `keepAfter x y` is `false` (i.e. `l` keeps `y` ahead of `x`
exactly while `keepAfter x y`). -/
def insertStable (keepAfter : α → α → Bool) (x : α) : List α → List α
  | [] => [x]
  | y :: ys =>
      if keepAfter x y then y :: insertStable keepAfter x ys
      else x :: y :: ys

/-- Python's stable `sorted`/`list.sort`, parameterised by the condition
under which an earlier element `x` must end up after an element `y`
(`keepAfter x y = true` iff `y` strictly precedes `x` in the sort order). -/
def pySort (keepAfter : α → α → Bool) (l : List α) : List α :=
  l.foldr (insertStable keepAfter) []

/-- `avg_rating` of `get_scored_recommendations`
(`backend/recommendation/core.py`, lines 202–206): mean of the profile's
seed ratings, or `None` when the list is empty. -/
def avgRatingOf (mp : ProfileDict) : Option ℚ :=
  if mp.external_ratings.isEmpty then none
  else some (mp.external_ratings.sum / (mp.external_ratings.length : ℚ))

/-- `avg_year` of `get_scored_recommendations`
(`backend/recommendation/core.py`, lines 208–212): the rounded mean of the
profile's seed years, or `None` when the list is empty. -/
def avgYearOf (years : List Int) : Option Int :=
  if years.isEmpty then none
  else some (pyRound (((years.sum : Int) : ℚ) / (years.length : ℚ)))

/-- `rating_score` as computed at `backend/recommendation/core.py` line
229: `max(0, 5 - abs(manga.external_average_rating - avg_rating)) if
manga.external_average_rating and avg_rating else 0`.  The guard is Python
truthiness: a present rating of `0` or a zero average counts as missing. -/
def rating_score_of (m : Manga) (avg_rating : Option ℚ) : ℚ :=
  if truthyNum m.external_average_rating && truthyNum avg_rating then
    max 0 (5 - |m.external_average_rating.getD 0 - avg_rating.getD 0|)
  else 0

/-- The per-candidate scoring step of `get_scored_recommendations`
(`backend/recommendation/core.py`, lines 215–251): the six feature terms,
their sum, and the output dict whose `score` is the sum rounded to 2
decimal places while `details` keeps the unrounded terms.  Note the
truthiness test `if manga.published_date and avg_year` from the source: a
zero average year is falsy.  Crucially, in the source `demo_score` is a
Python `float` (`int * 1.25`) while `rating_score`, when the truthiness
branch produced a positive value, is a `Decimal` (arithmetic on the
`Numeric(2,1)` column; `max(0, d)` returns the `Decimal` exactly when
`d > 0`, the `int` `0` otherwise) — so the sum at line 235 evaluates
`float + Decimal` and raises `TypeError` exactly when
`rating_score > 0`. -/
def scoreCandidate (db : DB) (mp : ProfileDict) (avg_rating : Option ℚ)
    (avg_year : Option Int) (m : Manga) : Except EngineError ScoredRec :=
  let genre_score : ℚ :=
    (((mangaAttrSet db.manga_genre m.manga_id).map
      (fun g => counterGet mp.genres g)).sum : ℚ) * 2
  let tag_score : ℚ :=
    (((mangaAttrSet db.manga_tag m.manga_id).map
      (fun t => counterGet mp.tags t)).sum : ℚ) * 3
  let demo_score : ℚ :=
    (((mangaAttrSet db.manga_demographic m.manga_id).map
      (fun d => counterGet mp.demographics d)).sum : ℚ) * (5/4)
  let author_score : ℚ :=
    if (mangaAttrSet db.manga_author m.manga_id).any
        (fun a => mp.authors.contains a) then 3 else 0
  let rating_score : ℚ := rating_score_of m avg_rating
  let year_score : ℚ :=
    match m.published_date, avg_year with
    | some d, some y =>
        if y ≠ 0 then max 0 (5 - (|d.year - y| : ℚ) * (1/2)) else 0
    | _, _ => 0
  if 0 < rating_score then .error .typeError
  else
    let score :=
      genre_score + tag_score + demo_score + author_score + rating_score +
        year_score
    .ok
      { manga_id := m.manga_id, title := m.title,
        external_average_rating := m.external_average_rating,
        cover_image_url := m.cover_image_url,
        score := pyRound2 score,
        details :=
          { genre_score := genre_score, tag_score := tag_score,
            demo_score := demo_score, author_score := author_score,
            rating_score := rating_score, year_score := year_score } }

/-- The body of a Python `for` loop that appends `f x` for each `x` and
whose body may raise: the first raise aborts the whole loop. -/
def mapExcept (f : α → Except ε β) : List α → Except ε (List β)
  | [] => .ok []
  | x :: xs =>
    match f x with
    | .error e => .error e
    | .ok y =>
      match mapExcept f xs with
      | .error e => .error e
      | .ok ys => .ok (y :: ys)

/-- `get_scored_recommendations(candidates, metadata_profile, session)`
(`backend/recommendation/core.py`, lines 164–254): empty candidate list
short-circuits to `[]`; otherwise the candidate metadata queries run (they
raise on a data-access failure — this function has no `try`), the seed
rating average is taken from `metadata_profile["external_ratings"]`, the
seed year average from `metadata_profile["years"]` (a `KeyError` if that
key is absent), every candidate is scored in order (the per-candidate
`TypeError` described at `scoreCandidate` aborts the loop), and the
results are sorted by `score` descending (stable). -/
def get_scored_recommendations (db : DB) (candidates : List Manga)
    (mp : ProfileDict) : Except EngineError (List ScoredRec) :=
  if candidates.isEmpty then .ok []
  else if db.fails then .error .dataAccessError
  else
    match mp.years with
    | none => .error (.keyError "years")
    | some years =>
      match mapExcept
          (scoreCandidate db mp (avgRatingOf mp) (avgYearOf years))
          candidates with
      | .error e => .error e
      | .ok scored =>
          .ok (pySort (fun x y => decide (x.score < y.score)) scored)

/-- The `{items, seed_total, seed_used, seed_truncated}` envelope returned
by both generator entry points (`backend/recommendation/generator.py`). -/
structure GenResult where
  items : List ScoredRec
  seed_total : Nat
  seed_used : Nat
  seed_truncated : Bool
deriving DecidableEq

/-- Observable side effects of one request, recorded at the call sites of
the data-access and cache interfaces, used to state which steps of the
pipeline a request actually performed. -/
inductive Eff where
  | ownershipQuery (user_id : String) (collection_id : Int)
  | cacheGet (key : String)
  | cacheSet (key : String) (items : List ScoredRec) (ttl : Option Nat)
  | collectionIdsQuery (user_id : String) (collection_id : Int)
  | profileBuild (seed_ids : List Int)
  | candidateQuery (excluded_ids : List Int)
  | scorerRun
deriving DecidableEq

/-- Modelled from the spec: `MAX_RECOMMENDATION_SEEDS` is imported from
`backend/config/limits.py`, a module absent from the sources (only its
importers and tests are present).  The spec describes it as "a fixed system
constant" and its worked examples use the value 100, so the generator is
parameterised over the cap (`cap`) and concrete instances use 100. -/
def MAX_RECOMMENDATION_SEEDS_spec : Nat := 100

/-- `generate_recommendations_for_collection(user_id, collection_id, db)`
(`backend/recommendation/generator.py`, lines 12–62): fetch the collection's
manga ids, raise `BadRequestError("RECOMMENDATION_SEED_EMPTY")` if none,
truncate to the first `cap` ids when over the cap, build the profile, and
then call `core.get_candidate_manga(excluded_ids=..., genre_ids=...,
tag_ids=..., demo_ids=..., db=db)` (lines 47–53).  The callee's fifth
parameter is named `session` and it accepts no `**kwargs`, so Python
raises `TypeError: unexpected keyword argument` at the call itself —
before the callee's `try` block can run and with no `try` in the
generator to catch it.  The scoring call and the envelope return
(lines 55–62) are therefore unreachable; the `GenResult` type records the
envelope those dead lines would have built.  The second component is the
request's effect trace. -/
def generate_recommendations_for_collection (cap : Nat) (db : DB)
    (user_id : String) (collection_id : Int) :
    Except EngineError GenResult × List Eff :=
  let manga_ids := get_manga_ids_in_user_collection db user_id collection_id
  if manga_ids.isEmpty then
    (.error (.badRequest "RECOMMENDATION_SEED_EMPTY"),
     [.collectionIdsQuery user_id collection_id])
  else
    let seeds :=
      if manga_ids.length > cap then manga_ids.take cap else manga_ids
    let _mp := get_metadata_profile_for_collection db seeds
    (.error .typeError,
     [Eff.collectionIdsQuery user_id collection_id, Eff.profileBuild seeds])

/-- `generate_recommendations_for_list(manga_ids, db)`
(`backend/recommendation/generator.py`, lines 65–109): same pipeline from a
raw id list; raises `BadRequestError("RECOMMENDATION_SEED_EMPTY")` on an
empty list, truncates to the first `cap` ids when over the cap, builds the
profile, and then raises the same `TypeError` as the collection entry
point: line 99 passes the keyword `db` to `core.get_candidate_manga`,
whose parameter is named `session`.  Lines 102–109 are unreachable. -/
def generate_recommendations_for_list (cap : Nat) (db : DB)
    (manga_ids : List Int) : Except EngineError GenResult × List Eff :=
  if manga_ids.isEmpty then
    (.error (.badRequest "RECOMMENDATION_SEED_EMPTY"), [])
  else
    let seeds :=
      if manga_ids.length > cap then manga_ids.take cap else manga_ids
    let _mp := get_metadata_profile_for_collection db seeds
    (.error .typeError, [Eff.profileBuild seeds])

/-- `get_owned_collection_id(user_db, user_id, collection_id)`
(`backend/repositories/collections_repo.py`): the collection id if a row
with this id and owner exists, else `None`. -/
def get_owned_collection_id (db : DB) (user_id : String)
    (collection_id : Int) : Option Int :=
  (db.collection.find?
    (fun p => p.1 == user_id && p.2 == collection_id)).map Prod.snd

/-- `build_recommendations_cache_key` (`backend/repositories/
recommendation_repo.py`): `recommendations:\x7buser_id\x7d:\x7bcollection_id\x7d`. -/
def build_recommendations_cache_key (user_id : String)
    (collection_id : Int) : String :=
  "recommendations:" ++ user_id ++ ":" ++ toString collection_id

/-- The key-value cache contents: key to cached items array.  JSON
(de)serialization of `RedisCache.get`/`set` is modelled as the identity. -/
abbrev Cache := List (String × List ScoredRec)

/-- `RedisCache.get(key)` (`backend/cache/redis.py`): the decoded value on a
hit, `None` on a miss. -/
def cacheLookup (cache : Cache) (key : String) : Option (List ScoredRec) :=
  (cache.find? (fun p => p.1 == key)).map Prod.snd

/-- `RedisCache._resolve_ttl(ttl)` (`backend/cache/redis.py`, lines 63–69):
an explicit `ttl` wins; otherwise the instance default; otherwise the
`CACHE_TTL_SECONDS` environment value (or nothing).  `cache_set_items`
passes no `ttl`, so the engine never sets an expiration explicitly. -/
def resolve_ttl (ttl ttl_default ttl_env : Option Nat) : Option Nat :=
  match ttl with
  | some t => some t
  | none =>
    match ttl_default with
    | some t => some t
    | none => ttl_env

/-- The validated order-by fields for recommendation sorting
(`RecommendationOrderField` in `backend/utils/ordering.py`). -/
inductive RecommendationOrderField where
  | score
  | title
  | external_average_rating
deriving DecidableEq

/-- `OrderDirection` (`backend/utils/ordering.py`). -/
inductive OrderDirection where
  | asc
  | desc
deriving DecidableEq

/-- A sort-key component of `_sort_items`: `float("-inf")`, a numeric key,
or a casefolded string key.  Within one call all primary keys are built by
the same branch of `key_func`, so the numeric/string order across
constructors is never observable. -/
inductive SortVal where
  | ninf
  | num (q : ℚ)
  | str (s : String)
deriving DecidableEq

/-- Strict comparison of sort-key components. -/
def SortVal.lt : SortVal → SortVal → Bool
  | .ninf, .ninf => false
  | .ninf, _ => true
  | .num _, .ninf => false
  | .num a, .num b => decide (a < b)
  | .num _, .str _ => true
  | .str a, .str b => decide (a < b)
  | .str _, _ => false

/-- `key_func` of `_sort_items` (`backend/services/recommendation_service.py`,
lines 18–24): the primary sort key for one item.  `casefold` is modelled as
ASCII lower-casing. -/
def sortKeyFor (order_by : RecommendationOrderField) (item : ScoredRec) :
    SortVal :=
  match order_by with
  | .score => .num item.score
  | .title => .str item.title.toLower
  | .external_average_rating =>
      match item.external_average_rating with
      | some v => .num v
      | none => .ninf

/-- Strict `<` on the `(key_func(x), title.casefold())` tuples that
`_sort_items` sorts by. -/
def sortPairLt (a b : SortVal × String) : Bool :=
  SortVal.lt a.1 b.1 || (a.1 == b.1 && decide (a.2 < b.2))

/-- `_sort_items(items, order_by, order_dir)`
(`backend/services/recommendation_service.py`, lines 15–29): stable sort on
`(key_func(x), title.casefold())`, reversed when `order_dir == "desc"`. -/
def sortItems (items : List ScoredRec)
    (order_by : RecommendationOrderField) (order_dir : OrderDirection) :
    List ScoredRec :=
  let key := fun x => (sortKeyFor order_by x, x.title.toLower)
  match order_dir with
  | .desc => pySort (fun x y => sortPairLt (key x) (key y)) items
  | .asc => pySort (fun x y => sortPairLt (key y) (key x)) items

/-- The page envelope returned by the recommendation service functions;
`seed_total`/`seed_used`/`seed_truncated` are present only when the
generator actually ran (`data.update` guarded by `seed_total is not None`). -/
structure PageData where
  total_results : Nat
  page : Nat
  size : Nat
  items : List ScoredRec
  seed_total : Option Nat
  seed_used : Option Nat
  seed_truncated : Option Bool
deriving DecidableEq

/-- `items[offset : offset + size]` with `offset = (page - 1) * size`;
`page` is 1-based (`ge=1` at the route). -/
def paginate (items : List ScoredRec) (page size : Nat) : List ScoredRec :=
  (items.drop ((page - 1) * size)).take size

/-- `get_recommendations_for_collection_page`
(`backend/services/recommendation_service.py`, lines 32–87):
assert ownership (`NotFoundError("COLLECTION_NOT_FOUND")` otherwise), then
read-through the cache under `build_recommendations_cache_key`: on a hit
serve the cached items, on a miss run the full generator pipeline and store
the resulting `items` array (only) under the key with no explicit TTL
(`cache_set_items` passes no `ttl`, so `RedisCache.set` receives `None`).
Sorting and pagination happen after the cache write.  The second component
is the request's effect trace. -/
def get_recommendations_for_collection_page (cap : Nat) (db : DB)
    (cache : Cache) (user_id : String) (collection_id : Int)
    (order_by : RecommendationOrderField) (order_dir : OrderDirection)
    (page size : Nat) : Except EngineError PageData × List Eff :=
  match get_owned_collection_id db user_id collection_id with
  | none =>
      (.error (.notFound "COLLECTION_NOT_FOUND"),
       [.ownershipQuery user_id collection_id])
  | some _ =>
    let key := build_recommendations_cache_key user_id collection_id
    let pre := [Eff.ownershipQuery user_id collection_id, Eff.cacheGet key]
    match cacheLookup cache key with
    | some cached_items =>
        let items := sortItems cached_items order_by order_dir
        (.ok { total_results := items.length, page := page, size := size,
               items := paginate items page size, seed_total := none,
               seed_used := none, seed_truncated := none },
         pre)
    | none =>
      match generate_recommendations_for_collection cap db user_id
          collection_id with
      | (.error e, tr) => (.error e, pre ++ tr)
      | (.ok r, tr) =>
          let items := sortItems r.items order_by order_dir
          (.ok { total_results := items.length, page := page, size := size,
                 items := paginate items page size,
                 seed_total := some r.seed_total,
                 seed_used := some r.seed_used,
                 seed_truncated := some r.seed_truncated },
           pre ++ tr ++ [Eff.cacheSet key r.items none])

/-- `get_recommendations_for_query_list_page`
(`backend/services/recommendation_service.py`, lines 90–130): reject an
empty id list with `BadRequestError("RECOMMENDATION_SEED_EMPTY")`,
deduplicate preserving first-occurrence order, run the list generator, then
sort and paginate.  This path performs no cache operation at all. -/
def get_recommendations_for_query_list_page (cap : Nat) (db : DB)
    (manga_ids : List Int) (order_by : RecommendationOrderField)
    (order_dir : OrderDirection) (page size : Nat) :
    Except EngineError PageData × List Eff :=
  if manga_ids.isEmpty then
    (.error (.badRequest "RECOMMENDATION_SEED_EMPTY"), [])
  else
    let deduped := pySetDedup manga_ids
    match generate_recommendations_for_list cap db deduped with
    | (.error e, tr) => (.error e, tr)
    | (.ok r, tr) =>
        let items := sortItems r.items order_by order_dir
        (.ok { total_results := items.length, page := page, size := size,
               items := paginate items page size,
               seed_total := some r.seed_total,
               seed_used := some r.seed_used,
               seed_truncated := some r.seed_truncated },
         tr)

/-- First-occurrence deduplication in its structural form: keep the head,
drop its later duplicates, recurse. -/
def dedupFO : List Int → List Int
  | [] => []
  | x :: xs => x :: dedupFO (xs.filter (fun y => !(y == x)))
termination_by l => l.length
decreasing_by
  simp only [List.length_cons]
  exact Nat.lt_succ_of_le (List.length_filter_le _ _)

def mangaA : Manga :=
  { manga_id := 1, title := "A", external_average_rating := some 8,
    published_date := some { year := 2015 }, cover_image_url := "a" }

def mangaC : Manga :=
  { manga_id := 2, title := "C", external_average_rating := some 8,
    published_date := some { year := 2015 }, cover_image_url := "c" }

def dbScenario : DB :=
  { manga_genre := [(1, 10), (2, 10)], manga_tag := [],
    manga_demographic := [(1, 20), (2, 20)], manga_author := [],
    manga := [mangaA, mangaC], collection := [("u", 1)],
    manga_collection := [(1, 1)], fails := false,
    set_iter := fun l => l }

/-- The metadata profile of `dbScenario`'s single-seed collection. -/
def mpScenario : ProfileDict :=
  { genres := [(10, 1)], tags := [], demographics := [(20, 1)],
    authors := [], external_ratings := [8], years := some [2015] }

/-- The expected scored recommendation for candidate C in the scenario. -/
def recScenario : ScoredRec :=
  { manga_id := 2, title := "C", external_average_rating := some 8,
    cover_image_url := "c", score := 53/4,
    details :=
      { genre_score := 2, tag_score := 0, demo_score := 5/4,
        author_score := 0, rating_score := 5, year_score := 5 } }

/-- An empty, healthy database. -/
def db0 : DB :=
  { manga_genre := [], manga_tag := [], manga_demographic := [],
    manga_author := [], manga := [], collection := [],
    manga_collection := [], fails := false, set_iter := fun l => l }

/-- An empty database whose data-access layer fails on every query. -/
def dbFailing : DB :=
  { manga_genre := [], manga_tag := [], manga_demographic := [],
    manga_author := [], manga := [], collection := [],
    manga_collection := [], fails := true, set_iter := fun l => l }

/-- 130 distinct seed ids `0..129` in relational-fetch order. -/
def seeds130 : List Int := (List.range 130).map (fun n => (n : Int))

/-- A database whose collection 7 (owned by `"u"`) links 130 manga. -/
def db130 : DB :=
  { manga_genre := [], manga_tag := [], manga_demographic := [],
    manga_author := [], manga := [], collection := [("u", 7)],
    manga_collection := seeds130.map (fun i => (7, i)), fails := false,
    set_iter := fun l => l }

/-- A candidate with no metadata at all. -/
def mZero : Manga :=
  { manga_id := 9, title := "Z", external_average_rating := none,
    published_date := none, cover_image_url := "z" }

/-- An empty (but well-formed) metadata profile. -/
def mpEmpty : ProfileDict :=
  { genres := [], tags := [], demographics := [], authors := [],
    external_ratings := [], years := some [] }

/-- The zero-score output entry for `mZero`. -/
def zeroRec : ScoredRec :=
  { manga_id := 9, title := "Z", external_average_rating := none,
    cover_image_url := "z", score := 0,
    details :=
      { genre_score := 0, tag_score := 0, demo_score := 0,
        author_score := 0, rating_score := 0, year_score := 0 } }

/-- A profile whose seed ratings are `[3]` (average 3). -/
def mpR3 : ProfileDict :=
  { genres := [], tags := [], demographics := [], authors := [],
    external_ratings := [3], years := some [] }

/-- A candidate whose external rating is present but equal to `0.0` (a
value the `Numeric(2,1)` column admits). -/
def mRate0 : Manga :=
  { manga_id := 4, title := "R", external_average_rating := some 0,
    published_date := none, cover_image_url := "r" }

/-- The scorer's output entry for `mRate0` against `mpR3`. -/
def recRate0 : ScoredRec :=
  { manga_id := 4, title := "R", external_average_rating := some 0,
    cover_image_url := "r", score := 0,
    details :=
      { genre_score := 0, tag_score := 0, demo_score := 0,
        author_score := 0, rating_score := 0, year_score := 0 } }

theorem insertStable_perm (f : α → α → Bool) (x : α) (l : List α) :
    List.Perm (insertStable f x l) (x :: l) := by
  induction l with
  | nil => exact List.Perm.refl _
  | cons y ys ih =>
      simp only [insertStable]
      split
      · exact ((ih.cons y).trans (List.Perm.swap x y ys))
      · exact List.Perm.refl _

theorem pySort_perm (f : α → α → Bool) (l : List α) :
    List.Perm (pySort f l) l := by
  induction l with
  | nil => exact List.Perm.refl _
  | cons y ys ih =>
      exact (insertStable_perm f y (pySort f ys)).trans (ih.cons y)

theorem mem_pySort (f : α → α → Bool) (l : List α) (a : α) :
    a ∈ pySort f l ↔ a ∈ l :=
  (pySort_perm f l).mem_iff

theorem length_pySort (f : α → α → Bool) (l : List α) :
    (pySort f l).length = l.length :=
  (pySort_perm f l).length_eq

theorem pairwise_insertStable (f : α → α → Bool)
    (hasym : ∀ a b, f a b = true → f b a = false)
    (htrans : ∀ a b c, f a b = false → f b c = false → f a c = false)
    (x : α) (l : List α) (hl : l.Pairwise (fun a b => f a b = false)) :
    (insertStable f x l).Pairwise (fun a b => f a b = false) := by
  induction l with
  | nil => simp [insertStable]
  | cons y ys ih =>
      rw [List.pairwise_cons] at hl
      simp only [insertStable]
      split
      · rename_i hxy
        refine List.Pairwise.cons ?_ (ih hl.2)
        intro z hz
        rcases List.mem_cons.mp
          ((insertStable_perm f x ys).mem_iff.mp hz) with hz | hz
        · exact hz ▸ hasym x y hxy
        · exact hl.1 z hz
      · rename_i hxy
        rw [Bool.not_eq_true] at hxy
        refine List.Pairwise.cons ?_ (List.pairwise_cons.mpr hl)
        intro z hz
        rcases List.mem_cons.mp hz with hz | hz
        · exact hz ▸ hxy
        · exact htrans x y z hxy (hl.1 z hz)

theorem pairwise_pySort (f : α → α → Bool)
    (hasym : ∀ a b, f a b = true → f b a = false)
    (htrans : ∀ a b c, f a b = false → f b c = false → f a c = false)
    (l : List α) :
    (pySort f l).Pairwise (fun a b => f a b = false) := by
  induction l with
  | nil => simp [pySort]
  | cons y ys ih => exact pairwise_insertStable f hasym htrans y _ ih

/-- The scorer's sort is descending on scores. -/
theorem pairwise_pySort_score (l : List ScoredRec) :
    (pySort (fun x y => decide (x.score < y.score)) l).Pairwise
      (fun a b => b.score ≤ a.score) := by
  have h := pairwise_pySort (fun x y : ScoredRec => decide (x.score < y.score))
    (fun a b hab => by
      simp only [decide_eq_true_eq] at hab
      simpa using not_lt_of_lt hab)
    (fun a b c hab hbc => by
      simp only [decide_eq_false_iff_not, not_lt] at hab hbc ⊢
      exact hbc.trans hab) l
  refine h.imp ?_
  intro a b hab
  simpa [decide_eq_false_iff_not, not_lt] using hab

theorem dedupFO_cons (x : Int) (xs : List Int) :
    dedupFO (x :: xs) = x :: dedupFO (xs.filter (fun y => !(y == x))) := by
  rw [dedupFO.eq_def]

theorem pySetDedup_go (xs : List Int) :
    ∀ acc : List Int,
      xs.foldl (fun acc x => if acc.contains x then acc else acc ++ [x])
        acc =
      acc ++ dedupFO (xs.filter (fun y => !(acc.contains y))) := by
  induction xs with
  | nil => intro acc; simp [dedupFO]
  | cons x xs ih =>
      intro acc
      by_cases hx : acc.contains x
      · simp only [List.foldl_cons, List.filter_cons, hx, if_pos,
          Bool.not_true, ih]
        simp
      · rw [Bool.not_eq_true] at hx
        simp only [List.foldl_cons, List.filter_cons, hx, if_neg,
          Bool.not_false, Bool.false_eq_true, not_false_iff, ih]
        rw [if_true, dedupFO_cons]
        simp only [List.filter_filter, List.append_assoc,
          List.singleton_append]
        congr 3
        apply List.filter_congr
        intro y _
        simp only [List.contains, List.elem_eq_mem, List.mem_append,
          List.mem_singleton, Bool.decide_or, Bool.not_or, Bool.and_comm]
        rfl

theorem pySetDedup_eq_dedupFO (xs : List Int) :
    pySetDedup xs = dedupFO xs := by
  have h := pySetDedup_go xs []
  simpa [pySetDedup, List.filter_true] using h

theorem dedupFO_sublist (xs : List Int) : (dedupFO xs).Sublist xs := by
  induction xs using dedupFO.induct with
  | case1 => simp [dedupFO]
  | case2 x xs ih =>
      rw [dedupFO_cons]
      exact (ih.trans (List.filter_sublist xs)).cons₂ x

theorem mem_dedupFO (xs : List Int) (a : Int) :
    a ∈ dedupFO xs ↔ a ∈ xs := by
  induction xs using dedupFO.induct with
  | case1 => simp [dedupFO]
  | case2 x xs ih =>
      rw [dedupFO_cons]
      by_cases hax : a = x
      · simp [hax]
      · simp [List.mem_cons, hax, ih, List.mem_filter, bne_iff_ne]

theorem dedupFO_nodup (xs : List Int) : (dedupFO xs).Nodup := by
  induction xs using dedupFO.induct with
  | case1 => simp [dedupFO]
  | case2 x xs ih =>
      rw [dedupFO_cons]
      refine List.nodup_cons.mpr ⟨?_, ih⟩
      intro hx
      have := (mem_dedupFO _ x).mp hx
      simp [List.mem_filter] at this

theorem dedupFO_eq_nil_iff (xs : List Int) : dedupFO xs = [] ↔ xs = [] := by
  cases xs with
  | nil => simp [dedupFO]
  | cons x xs => rw [dedupFO_cons]; simp

theorem pySetDedup_sublist (xs : List Int) : (pySetDedup xs).Sublist xs :=
  pySetDedup_eq_dedupFO xs ▸ dedupFO_sublist xs

theorem mem_pySetDedup (xs : List Int) (a : Int) :
    a ∈ pySetDedup xs ↔ a ∈ xs :=
  pySetDedup_eq_dedupFO xs ▸ mem_dedupFO xs a

theorem pySetDedup_nodup (xs : List Int) : (pySetDedup xs).Nodup :=
  pySetDedup_eq_dedupFO xs ▸ dedupFO_nodup xs

theorem pySetDedup_eq_nil_iff (xs : List Int) :
    pySetDedup xs = [] ↔ xs = [] :=
  pySetDedup_eq_dedupFO xs ▸ dedupFO_eq_nil_iff xs

theorem pyRound_intCast (n : Int) : pyRound (n : ℚ) = n := by
  simp [pyRound]

theorem pyRound2_zero : pyRound2 0 = 0 := by
  have h := pyRound_intCast 0
  simp only [Int.cast_zero] at h
  simp [pyRound2, h]

theorem mapExcept_ok_forall₂ {f : α → Except ε β} :
    ∀ {l : List α} {ys : List β}, mapExcept f l = .ok ys →
      List.Forall₂ (fun a b => f a = .ok b) l ys := by
  intro l
  induction l with
  | nil =>
      intro ys h
      simp only [mapExcept, Except.ok.injEq] at h
      exact h ▸ List.Forall₂.nil
  | cons x xs ih =>
      intro ys h
      simp only [mapExcept] at h
      cases hf : f x with
      | error e => rw [hf] at h; exact absurd h (by simp)
      | ok y =>
          rw [hf] at h
          cases hm : mapExcept f xs with
          | error e => rw [hm] at h; exact absurd h (by simp)
          | ok ys2 =>
              rw [hm] at h
              simp only [Except.ok.injEq] at h
              exact h ▸ List.Forall₂.cons hf (ih hm)

theorem mapExcept_error_elim {f : α → Except ε β} :
    ∀ {l : List α} {e : ε}, mapExcept f l = .error e →
      ∃ a ∈ l, f a = .error e := by
  intro l
  induction l with
  | nil => intro e h; exact absurd h (by simp [mapExcept])
  | cons x xs ih =>
      intro e h
      simp only [mapExcept] at h
      cases hf : f x with
      | error e2 =>
          rw [hf] at h
          simp only [Except.error.injEq] at h
          exact ⟨x, List.mem_cons_self x xs, h ▸ hf⟩
      | ok y =>
          rw [hf] at h
          cases hm : mapExcept f xs with
          | error e2 =>
              rw [hm] at h
              simp only [Except.error.injEq] at h
              obtain ⟨a, ha, hfa⟩ := ih (h ▸ hm)
              exact ⟨a, List.mem_cons_of_mem x ha, hfa⟩
          | ok ys2 => rw [hm] at h; exact absurd h (by simp)

theorem forall₂_mem_right {R : α → β → Prop} :
    ∀ {l : List α} {ys : List β}, List.Forall₂ R l ys →
      ∀ b ∈ ys, ∃ a ∈ l, R a b := by
  intro l ys h
  induction h with
  | nil => intro b hb; exact absurd hb (List.not_mem_nil b)
  | cons hab _ ih =>
      intro b hb
      rcases List.mem_cons.mp hb with rfl | hb
      · exact ⟨_, List.mem_cons_self _ _, hab⟩
      · obtain ⟨a, ha, hr⟩ := ih b hb
        exact ⟨a, List.mem_cons_of_mem _ ha, hr⟩

theorem forall₂_mem_left {R : α → β → Prop} :
    ∀ {l : List α} {ys : List β}, List.Forall₂ R l ys →
      ∀ a ∈ l, ∃ b ∈ ys, R a b := by
  intro l ys h
  induction h with
  | nil => intro a ha; exact absurd ha (List.not_mem_nil a)
  | cons hab _ ih =>
      intro a ha
      rcases List.mem_cons.mp ha with rfl | ha
      · exact ⟨_, List.mem_cons_self _ _, hab⟩
      · obtain ⟨b, hb, hr⟩ := ih a ha
        exact ⟨b, List.mem_cons_of_mem _ hb, hr⟩

theorem forall₂_map_eq {R : α → β → Prop} (f : β → γ) (g : α → γ)
    (hpt : ∀ a b, R a b → f b = g a) :
    ∀ {l : List α} {ys : List β}, List.Forall₂ R l ys →
      ys.map f = l.map g := by
  intro l ys h
  induction h with
  | nil => rfl
  | cons hab _ ih => simp only [List.map_cons, hpt _ _ hab, ih]

/-- `scoreCandidate` as an if-then-else: the request dies with `TypeError`
exactly when the rating term is positive, else the scored entry is
produced. -/
theorem scoreCandidate_eq (db : DB) (mp : ProfileDict) (aR : Option ℚ)
    (aY : Option Int) (m : Manga) :
    scoreCandidate db mp aR aY m =
      (if 0 < rating_score_of m aR then .error .typeError
       else
        .ok
          { manga_id := m.manga_id, title := m.title,
            external_average_rating := m.external_average_rating,
            cover_image_url := m.cover_image_url,
            score := pyRound2
              ((((mangaAttrSet db.manga_genre m.manga_id).map
                  (fun g => counterGet mp.genres g)).sum : ℚ) * 2 +
                (((mangaAttrSet db.manga_tag m.manga_id).map
                  (fun t => counterGet mp.tags t)).sum : ℚ) * 3 +
                (((mangaAttrSet db.manga_demographic m.manga_id).map
                  (fun d => counterGet mp.demographics d)).sum : ℚ) *
                  (5/4) +
                (if (mangaAttrSet db.manga_author m.manga_id).any
                    (fun a => mp.authors.contains a) then (3 : ℚ)
                 else 0) +
                rating_score_of m aR +
                (match m.published_date, aY with
                 | some d, some y =>
                     if y ≠ 0 then
                       max 0 (5 - (|d.year - y| : ℚ) * (1/2))
                     else 0
                 | _, _ => 0)),
            details :=
              { genre_score :=
                  (((mangaAttrSet db.manga_genre m.manga_id).map
                    (fun g => counterGet mp.genres g)).sum : ℚ) * 2,
                tag_score :=
                  (((mangaAttrSet db.manga_tag m.manga_id).map
                    (fun t => counterGet mp.tags t)).sum : ℚ) * 3,
                demo_score :=
                  (((mangaAttrSet db.manga_demographic m.manga_id).map
                    (fun d => counterGet mp.demographics d)).sum : ℚ) *
                    (5/4),
                author_score :=
                  if (mangaAttrSet db.manga_author m.manga_id).any
                      (fun a => mp.authors.contains a) then (3 : ℚ)
                  else 0,
                rating_score := rating_score_of m aR,
                year_score :=
                  match m.published_date, aY with
                  | some d, some y =>
                      if y ≠ 0 then
                        max 0 (5 - (|d.year - y| : ℚ) * (1/2))
                      else 0
                  | _, _ => 0 } }) := rfl

theorem rating_score_of_nonneg (m : Manga) (aR : Option ℚ) :
    0 ≤ rating_score_of m aR := by
  unfold rating_score_of
  split
  · exact le_max_left 0 _
  · exact le_refl 0

theorem scoreCandidate_error_iff {db : DB} {mp : ProfileDict}
    {aR : Option ℚ} {aY : Option Int} {m : Manga} {e : EngineError} :
    scoreCandidate db mp aR aY m = .error e ↔
      e = .typeError ∧ 0 < rating_score_of m aR := by
  rw [scoreCandidate_eq]
  by_cases h : 0 < rating_score_of m aR
  · rw [if_pos h]
    simp [h, eq_comm]
  · rw [if_neg h]
    simp [h]

theorem scoreCandidate_ok_fields {db : DB} {mp : ProfileDict}
    {aR : Option ℚ} {aY : Option Int} {m : Manga} {e : ScoredRec}
    (h : scoreCandidate db mp aR aY m = .ok e) :
    e.manga_id = m.manga_id ∧
    e.details.genre_score =
      (((mangaAttrSet db.manga_genre m.manga_id).map
        (fun g => counterGet mp.genres g)).sum : ℚ) * 2 ∧
    e.details.tag_score =
      (((mangaAttrSet db.manga_tag m.manga_id).map
        (fun t => counterGet mp.tags t)).sum : ℚ) * 3 ∧
    e.details.demo_score =
      (((mangaAttrSet db.manga_demographic m.manga_id).map
        (fun d => counterGet mp.demographics d)).sum : ℚ) * (5/4) ∧
    e.details.author_score =
      (if (mangaAttrSet db.manga_author m.manga_id).any
          (fun a => mp.authors.contains a) then (3 : ℚ) else 0) ∧
    e.details.rating_score = rating_score_of m aR ∧
    rating_score_of m aR = 0 ∧
    e.score = pyRound2
      (e.details.genre_score + e.details.tag_score +
       e.details.demo_score + e.details.author_score +
       e.details.rating_score + e.details.year_score) := by
  rw [scoreCandidate_eq] at h
  by_cases hpos : 0 < rating_score_of m aR
  · rw [if_pos hpos] at h
    exact absurd h (by simp)
  · rw [if_neg hpos] at h
    have hzero : rating_score_of m aR = 0 :=
      le_antisymm (not_lt.mp hpos) (rating_score_of_nonneg m aR)
    simp only [Except.ok.injEq] at h
    subst h
    exact ⟨rfl, rfl, rfl, rfl, rfl, rfl, hzero, rfl⟩

theorem scorer_ok_cases {db : DB} {cands : List Manga} {mp : ProfileDict}
    {scored : List ScoredRec}
    (h : get_scored_recommendations db cands mp = .ok scored) :
    (cands = [] ∧ scored = []) ∨
    (∃ years ys, mp.years = some years ∧ db.fails = false ∧
      mapExcept (scoreCandidate db mp (avgRatingOf mp) (avgYearOf years))
        cands = .ok ys ∧
      scored = pySort (fun x y => decide (x.score < y.score)) ys) := by
  by_cases hc : cands.isEmpty
  · left
    rw [List.isEmpty_iff] at hc
    subst hc
    simp only [get_scored_recommendations, List.isEmpty_nil, if_pos] at h
    exact ⟨rfl, (Except.ok.injEq _ _).mp h.symm⟩
  · right
    simp only [get_scored_recommendations, hc, Bool.false_eq_true,
      if_neg, if_false] at h
    by_cases hf : db.fails
    · simp [hf] at h
    · rw [Bool.not_eq_true] at hf
      simp only [hf, Bool.false_eq_true, if_false] at h
      match hy : mp.years with
      | none => rw [hy] at h; simp at h
      | some years =>
          simp only [hy] at h
          cases hm : mapExcept (scoreCandidate db mp (avgRatingOf mp)
              (avgYearOf years)) cands with
          | error e => rw [hm] at h; simp at h
          | ok ys =>
              rw [hm] at h
              simp only [Except.ok.injEq] at h
              exact ⟨years, ys, rfl, hf, hm, h.symm⟩

/-- If any candidate's rating term is positive, the scorer run dies with
the `float + Decimal` `TypeError`. -/
theorem scorer_crash_of_mem {db : DB} {cands : List Manga}
    {mp : ProfileDict} {m : Manga} {years : List Int}
    (hm : m ∈ cands) (hf : db.fails = false)
    (hy : mp.years = some years)
    (hpos : 0 < rating_score_of m (avgRatingOf mp)) :
    get_scored_recommendations db cands mp = .error .typeError := by
  have hne : cands.isEmpty = false := by
    cases cands with
    | nil => exact absurd hm (List.not_mem_nil m)
    | cons c cs => rfl
  unfold get_scored_recommendations
  rw [hne, hf, hy]
  simp only [Bool.false_eq_true, if_false]
  cases hmap : mapExcept (scoreCandidate db mp (avgRatingOf mp)
      (avgYearOf years)) cands with
  | ok ys =>
      exfalso
      obtain ⟨b, _, hb⟩ :=
        forall₂_mem_left (mapExcept_ok_forall₂ hmap) m hm
      rw [scoreCandidate_eq, if_pos hpos] at hb
      exact absurd hb (by simp)
  | error e =>
      obtain ⟨a, _, ha⟩ := mapExcept_error_elim hmap
      obtain ⟨rfl, _⟩ := scoreCandidate_error_iff.mp ha
      rfl

theorem scenario_seed_ids :
    get_manga_ids_in_user_collection dbScenario "u" 1 = [1] := by decide

theorem scenario_profile :
    get_metadata_profile_for_collection dbScenario [1] = mpScenario := by
  decide

theorem scenario_candidates :
    get_candidate_manga dbScenario [1] [10] [] [20] 2000 = [mangaC] := by
  decide

theorem scenario_avg_rating : avgRatingOf mpScenario = some 8 := by
  simp only [avgRatingOf, mpScenario]
  norm_num

theorem scenario_avg_year : avgYearOf [2015] = some 2015 := by
  have h : ((([(2015 : Int)] : List Int).sum : Int) : ℚ) /
      ((([(2015 : Int)] : List Int).length : Nat) : ℚ) = ((2015 : Int) : ℚ) := by
    norm_num
  simp only [avgYearOf, List.isEmpty_cons, if_neg, Bool.false_eq_true,
    not_false_iff, h, pyRound_intCast]

theorem scenario_rating : rating_score_of mangaC (some 8) = 5 := by
  have h8 : truthyNum (some (8 : ℚ)) = true := by
    simp [truthyNum]
  unfold rating_score_of
  rw [show mangaC.external_average_rating = some 8 from rfl, h8]
  norm_num

/-- In the spec's end-to-end scenario the candidate's rating term is
positive (`5`), so its scoring step raises the `float + Decimal`
`TypeError` instead of building the scored dict. -/
theorem scenario_scoreC_crash :
    scoreCandidate dbScenario mpScenario (some 8) (some 2015) mangaC =
      .error .typeError := by
  rw [scoreCandidate_eq, if_pos (by rw [scenario_rating]; norm_num)]

/-- The scenario's scorer run dies with the `TypeError` from the score
sum. -/
theorem scenario_scorer_crash :
    get_scored_recommendations dbScenario [mangaC] mpScenario =
      .error .typeError := by
  refine scorer_crash_of_mem (List.mem_singleton.mpr rfl) rfl rfl ?_
  rw [scenario_avg_rating, scenario_rating]
  norm_num

/-- End-to-end: on `dbScenario` the collection generator resolves the
seed, builds the profile, and then dies with the mis-keyworded-call
`TypeError` — it never returns an envelope. -/
theorem scenario_generator_crash :
    generate_recommendations_for_collection 100 dbScenario "u" 1 =
      (.error .typeError,
       [.collectionIdsQuery "u" 1, .profileBuild [1]]) := by
  decide

/-- A non-failing request's profile always carries the `years` key. -/
theorem profile_years_isSome (db : DB) (ids : List Int)
    (hf : db.fails = false) :
    (get_metadata_profile_for_collection db ids).years.isSome := by
  simp [get_metadata_profile_for_collection, hf]

/-- The collection generator always ends in an error: `BadRequest` on an
empty seed set, the mis-keyworded-call `TypeError` otherwise. -/
theorem gen_collection_error (cap : Nat) (db : DB) (uid : String)
    (cid : Int) :
    ∃ e, (generate_recommendations_for_collection cap db uid cid).1 =
      .error e := by
  unfold generate_recommendations_for_collection
  by_cases hie : (get_manga_ids_in_user_collection db uid cid).isEmpty
  · exact ⟨.badRequest "RECOMMENDATION_SEED_EMPTY", by simp [hie]⟩
  · rw [Bool.not_eq_true] at hie
    exact ⟨.typeError, by simp [hie]⟩

/-- Every effect the collection generator records is the seed-ids query or
the profile build: the crash precedes candidate selection, scoring and any
cache access. -/
theorem gen_collection_trace_shape (cap : Nat) (db : DB) (uid : String)
    (cid : Int) :
    ∀ e ∈ (generate_recommendations_for_collection cap db uid cid).2,
      e = Eff.collectionIdsQuery uid cid ∨
        ∃ s, e = Eff.profileBuild s := by
  intro e he
  unfold generate_recommendations_for_collection at he
  by_cases hie : (get_manga_ids_in_user_collection db uid cid).isEmpty
  · simp [hie] at he
    exact .inl he
  · rw [Bool.not_eq_true] at hie
    simp only [hie, Bool.false_eq_true, if_false, List.mem_cons,
      List.mem_singleton, List.not_mem_nil, or_false] at he
    rcases he with h | h
    · exact .inl h
    · exact .inr ⟨_, h⟩

/-- The ad-hoc list generator always ends in an error: `BadRequest` on an
empty list, the mis-keyworded-call `TypeError` otherwise. -/
theorem gen_list_error (cap : Nat) (db : DB) (l : List Int) :
    ∃ e, (generate_recommendations_for_list cap db l).1 = .error e := by
  unfold generate_recommendations_for_list
  by_cases hl : l.isEmpty
  · exact ⟨.badRequest "RECOMMENDATION_SEED_EMPTY", by simp [hl]⟩
  · rw [Bool.not_eq_true] at hl
    exact ⟨.typeError, by simp [hl]⟩

/-- Every effect the ad-hoc list generator records is a profile build: it
aborts before candidate selection and scoring, and never touches the
cache. -/
theorem gen_list_trace_shape (cap : Nat) (db : DB) (l : List Int) :
    ∀ e ∈ (generate_recommendations_for_list cap db l).2,
      ∃ s, e = Eff.profileBuild s := by
  intro e he
  unfold generate_recommendations_for_list at he
  by_cases hl : l.isEmpty
  · simp [hl] at he
  · rw [Bool.not_eq_true] at hl
    simp only [hl, Bool.false_eq_true, if_false, List.mem_singleton,
      List.mem_cons, List.not_mem_nil, or_false] at he
    exact ⟨_, he⟩

/-- C5: for every collection-based request whose collection does not exist
or is owned by a different user (`get_owned_collection_id` yields `None`),
the service fails with `NotFound` (`COLLECTION_NOT_FOUND`) — not
`BadRequest` or any other error kind — and its effect trace shows that no
profile build, no candidate selection, and not even a cache read is
attempted. -/
theorem claim_C5_unowned_collection_not_found (cap : Nat) (db : DB)
    (cache : Cache) (uid : String) (cid : Int)
    (ob : RecommendationOrderField) (od : OrderDirection)
    (page size : Nat)
    (h : get_owned_collection_id db uid cid = none) :
    get_recommendations_for_collection_page cap db cache uid cid ob od
        page size =
      (.error (.notFound "COLLECTION_NOT_FOUND"),
       [.ownershipQuery uid cid]) ∧
    (∀ seeds, Eff.profileBuild seeds ∉
      (get_recommendations_for_collection_page cap db cache uid cid ob od
        page size).2) ∧
    (∀ excl, Eff.candidateQuery excl ∉
      (get_recommendations_for_collection_page cap db cache uid cid ob od
        page size).2) := by
  have heq : get_recommendations_for_collection_page cap db cache uid cid
      ob od page size =
      (.error (.notFound "COLLECTION_NOT_FOUND"),
       [.ownershipQuery uid cid]) := by
    unfold get_recommendations_for_collection_page
    rw [h]
  refine ⟨heq, ?_, ?_⟩ <;> intro x <;> rw [heq] <;> simp

theorem claim_C5_witness :
    get_recommendations_for_collection_page 100 db0 [] "u" 1 .score .desc
        1 20 =
      (.error (.notFound "COLLECTION_NOT_FOUND"),
       [.ownershipQuery "u" 1]) ∧
    (∀ seeds, Eff.profileBuild seeds ∉
      (get_recommendations_for_collection_page 100 db0 [] "u" 1 .score
        .desc 1 20).2) := by
  have h := claim_C5_unowned_collection_not_found 100 db0 [] "u" 1 .score
    .desc 1 20 (by decide)
  exact ⟨h.1, h.2.1⟩

/-- C2 counterexample: on a database whose bulk lookups all fail
(`dbFailing.fails = true`), the profile builder does not propagate the
error — the caller receives the empty-fallback profile — and the candidate
fetch does not fail hard — the caller receives an empty candidate list.
This contradicts the claim that a data-access error during profile
building or candidate fetching propagates unmodified to the caller. -/
theorem claim_C2_counterexample :
    dbFailing.fails = true ∧
    get_metadata_profile_for_collection dbFailing [1] = fallback_profile ∧
    get_candidate_manga dbFailing [1] [10] [20] [30] 2000 = [] := by
  decide

/-- C2 (amended): on a data-access error, `get_metadata_profile_for_collection`
catches the exception and returns the empty fallback profile (which lacks
the `years` key), and `get_candidate_manga` catches it and returns the
empty candidate list; the error is swallowed, not propagated. -/
theorem claim_C2_amended_error_swallowed (db : DB) (h : db.fails = true) :
    (∀ ids, get_metadata_profile_for_collection db ids =
      fallback_profile) ∧
    (∀ excl gs ts ds n, get_candidate_manga db excl gs ts ds n = []) := by
  constructor
  · intro ids
    simp [get_metadata_profile_for_collection, h]
  · intro excl gs ts ds n
    simp [get_candidate_manga, h]

theorem claim_C2_amended_witness :
    get_metadata_profile_for_collection dbFailing [5] = fallback_profile ∧
    get_candidate_manga dbFailing [] [] [] [] 7 = [] :=
  ⟨(claim_C2_amended_error_swallowed dbFailing rfl).1 [5],
   (claim_C2_amended_error_swallowed dbFailing rfl).2 [] [] [] [] 7⟩

/-- C10: when a data-access error occurs inside
`get_metadata_profile_for_collection`, the returned fallback profile has
empty genres, tags, demographics, authors and external_ratings but no
`years` key at all; consequently, for every non-empty candidate list
(scored with a working session), `get_scored_recommendations` on that
fallback profile fails with `KeyError("years")` instead of producing
scored results. -/
theorem claim_C10_fallback_profile_keyerror :
    (∀ (db : DB) (ids : List Int), db.fails = true →
      get_metadata_profile_for_collection db ids = fallback_profile) ∧
    (fallback_profile.genres = [] ∧ fallback_profile.tags = [] ∧
     fallback_profile.demographics = [] ∧ fallback_profile.authors = [] ∧
     fallback_profile.external_ratings = [] ∧
     fallback_profile.years = none) ∧
    (∀ (db : DB) (cands : List Manga), db.fails = false → cands ≠ [] →
      get_scored_recommendations db cands fallback_profile =
        .error (.keyError "years")) := by
  refine ⟨?_, by decide, ?_⟩
  · intro db ids h
    simp [get_metadata_profile_for_collection, h]
  · intro db cands hf hne
    cases cands with
    | nil => exact absurd rfl hne
    | cons c cs =>
        simp [get_scored_recommendations, hf, fallback_profile]

theorem claim_C10_witness :
    get_metadata_profile_for_collection dbFailing [3] = fallback_profile ∧
    get_scored_recommendations db0 [mangaC] fallback_profile =
      .error (.keyError "years") :=
  ⟨claim_C10_fallback_profile_keyerror.1 dbFailing [3] rfl,
   claim_C10_fallback_profile_keyerror.2.2 db0 [mangaC] rfl (by decide)⟩

/-- C4: the ad-hoc seed resolver rejects an empty id list with
`BadRequest("RECOMMENDATION_SEED_EMPTY")` (and only an empty input list
can produce an empty deduplicated list), deduplicates preserving
first-occurrence order — duplicate-free, order-preserving (a sublist of
the input), membership-preserving — and on the spec's example
`[5,5,7,6,7,5]` resolves the seed order `[5,7,6]`, which is exactly what
the profile builder is invoked with. -/
theorem claim_C4_adhoc_dedup :
    (∀ (cap : Nat) (db : DB) (ob : RecommendationOrderField)
       (od : OrderDirection) (page size : Nat),
      get_recommendations_for_query_list_page cap db [] ob od page size =
        (.error (.badRequest "RECOMMENDATION_SEED_EMPTY"), [])) ∧
    (∀ l : List Int, pySetDedup l = [] ↔ l = []) ∧
    (∀ l : List Int, (pySetDedup l).Nodup ∧ (pySetDedup l).Sublist l ∧
      (∀ x, x ∈ pySetDedup l ↔ x ∈ l)) ∧
    pySetDedup [5, 5, 7, 6, 7, 5] = [5, 7, 6] ∧
    Eff.profileBuild [5, 7, 6] ∈
      (get_recommendations_for_query_list_page 100 db0 [5, 5, 7, 6, 7, 5]
        .score .desc 1 20).2 := by
  refine ⟨fun cap db ob od page size => rfl, pySetDedup_eq_nil_iff,
    fun l => ⟨pySetDedup_nodup l, pySetDedup_sublist l,
      mem_pySetDedup l⟩, by decide, by decide⟩

set_option maxRecDepth 40000 in
/-- C3: the truncation logic itself runs — when the resolved seed list
exceeds the cap, both entry points hand exactly the first `cap` ids to the
profile builder — but the request then dies with the mis-keyworded
`db=`/`session` `TypeError` at the candidate-selector call, so the
envelope with `seed_total`/`seed_used`/`seed_truncated` is never returned
and the candidate selector never receives the excluded ids; concretely,
with cap 100 and a 130-manga collection the profile builder receives the
first 100 ids and the request errors. -/
theorem claim_C3_truncation_then_crash :
    (∀ (cap : Nat) (db : DB) (uid : String) (cid : Int) (ids : List Int),
      ids = get_manga_ids_in_user_collection db uid cid →
      ids ≠ [] → ids.length > cap →
      generate_recommendations_for_collection cap db uid cid =
        (.error .typeError,
         [.collectionIdsQuery uid cid, .profileBuild (ids.take cap)]) ∧
      (ids.take cap).length = cap) ∧
    (∀ (cap : Nat) (db : DB) (ids : List Int),
      ids ≠ [] → ids.length > cap →
      generate_recommendations_for_list cap db ids =
        (.error .typeError, [.profileBuild (ids.take cap)]) ∧
      (ids.take cap).length = cap) ∧
    (∀ (cap : Nat) (db : DB) (uid : String) (cid : Int) (excl : List Int)
       (r : GenResult),
      Eff.candidateQuery excl ∉
        (generate_recommendations_for_collection cap db uid cid).2 ∧
      (generate_recommendations_for_collection cap db uid cid).1 ≠
        .ok r) ∧
    (generate_recommendations_for_collection 100 db130 "u" 7 =
      (.error .typeError,
       [.collectionIdsQuery "u" 7, .profileBuild (seeds130.take 100)]) ∧
     (seeds130.take 100).length = 100) := by
  have htake : ∀ (ids : List Int) (cap : Nat), ids.length > cap →
      (ids.take cap).length = cap := by
    intro ids cap h
    rw [List.length_take]
    exact Nat.min_eq_left (Nat.le_of_lt h)
  refine ⟨?_, ?_, ?_, by decide, by decide⟩
  · intro cap db uid cid ids hids hne hlen
    have hie : ids.isEmpty = false :=
      Bool.eq_false_iff.mpr (fun h => hne (List.isEmpty_iff.mp h))
    refine ⟨?_, htake ids cap hlen⟩
    unfold generate_recommendations_for_collection
    rw [← hids]
    simp only [hie, Bool.false_eq_true, if_false, if_pos hlen]
  · intro cap db ids hne hlen
    have hie : ids.isEmpty = false :=
      Bool.eq_false_iff.mpr (fun h => hne (List.isEmpty_iff.mp h))
    refine ⟨?_, htake ids cap hlen⟩
    unfold generate_recommendations_for_list
    simp only [hie, Bool.false_eq_true, if_false, if_pos hlen]
  · intro cap db uid cid excl r
    constructor
    · intro hmem
      rcases gen_collection_trace_shape cap db uid cid _ hmem with
        h | ⟨s, h⟩ <;> simp at h
    · intro hok
      obtain ⟨e, he⟩ := gen_collection_error cap db uid cid
      rw [hok] at he
      exact absurd he (by simp)

set_option maxRecDepth 40000 in
theorem claim_C3_witness :
    generate_recommendations_for_collection 100 db130 "u" 7 =
      (.error .typeError,
       [.collectionIdsQuery "u" 7, .profileBuild (seeds130.take 100)]) ∧
    (seeds130.take 100).length = 100 :=
  claim_C3_truncation_then_crash.1 100 db130 "u" 7 seeds130 (by decide)
    (by decide) (by decide)

/-- With all three attribute id lists empty, the selection filter is
everywhere false, so no candidate qualifies. -/
theorem get_candidate_manga_empty_attrs (db : DB) (excl : List Int)
    (maxc : Nat) : get_candidate_manga db excl [] [] [] maxc = [] := by
  unfold get_candidate_manga
  split
  · rfl
  · rw [List.filter_eq_nil_iff.mpr (fun m _ => by simp)]
    exact List.take_nil

/-- C8: the first half of the claim holds — with all three attribute id
lists empty the selection filter is everywhere false, so
`get_candidate_manga` returns `[]` for any database, excluded ids and
cap — but the second half does not: the generator never returns
`items = []` (or any envelope), because its call to the selector passes
the keyword `db=` to a parameter named `session` and raises `TypeError`
for every non-empty seed set. -/
theorem claim_C8_selector_empty_generator_crash :
    (∀ (db : DB) (excl : List Int) (maxc : Nat),
      get_candidate_manga db excl [] [] [] maxc = []) ∧
    (∀ (cap : Nat) (db : DB) (uid : String) (cid : Int) (r : GenResult),
      (generate_recommendations_for_collection cap db uid cid).1 ≠
        .ok r) ∧
    (∀ (cap : Nat) (db : DB) (uid : String) (cid : Int),
      get_manga_ids_in_user_collection db uid cid ≠ [] →
      (generate_recommendations_for_collection cap db uid cid).1 =
        .error .typeError) := by
  refine ⟨get_candidate_manga_empty_attrs, ?_, ?_⟩
  · intro cap db uid cid r hok
    obtain ⟨e, he⟩ := gen_collection_error cap db uid cid
    rw [hok] at he
    exact absurd he (by simp)
  · intro cap db uid cid hne
    have hie : (get_manga_ids_in_user_collection db uid cid).isEmpty =
        false :=
      Bool.eq_false_iff.mpr (fun h => hne (List.isEmpty_iff.mp h))
    unfold generate_recommendations_for_collection
    simp only [hie, Bool.false_eq_true, if_false]

set_option maxRecDepth 40000 in
theorem claim_C8_witness :
    get_candidate_manga dbScenario [1] [] [] [] 2000 = [] ∧
    (generate_recommendations_for_collection 100 db130 "u" 7).1 =
      .error .typeError :=
  ⟨claim_C8_selector_empty_generator_crash.1 dbScenario [1] 2000,
   claim_C8_selector_empty_generator_crash.2.2 100 db130 "u" 7
     (by decide)⟩


/-- C9: the read-through structure exists — the cache is checked under
`recommendations:\x7buser_id\x7d:\x7bcollection_id\x7d` after the ownership check, a
hit serves the cached items with no write-back, `_resolve_ttl(None)` with
no defaults yields no expiration, and the ad-hoc list path never reads or
writes the cache — but the miss path can never store anything: the
generator always errors (the mis-keyworded `db=` call), so the request
fails and no `cache set` ever appears in its trace; the claimed "store
the items array on a miss" is unreachable. -/
theorem claim_C9_read_through_but_never_stores :
    (∀ (cap : Nat) (db : DB) (cache : Cache) (uid : String) (cid : Int)
       (ob : RecommendationOrderField) (od : OrderDirection)
       (page size : Nat) (own : Int) (items0 : List ScoredRec),
      get_owned_collection_id db uid cid = some own →
      cacheLookup cache (build_recommendations_cache_key uid cid) =
        some items0 →
      get_recommendations_for_collection_page cap db cache uid cid ob od
          page size =
        (.ok { total_results := (sortItems items0 ob od).length,
               page := page, size := size,
               items := paginate (sortItems items0 ob od) page size,
               seed_total := none, seed_used := none,
               seed_truncated := none },
         [Eff.ownershipQuery uid cid,
          Eff.cacheGet (build_recommendations_cache_key uid cid)])) ∧
    (∀ (cap : Nat) (db : DB) (cache : Cache) (uid : String) (cid : Int)
       (ob : RecommendationOrderField) (od : OrderDirection)
       (page size : Nat) (own : Int),
      get_owned_collection_id db uid cid = some own →
      cacheLookup cache (build_recommendations_cache_key uid cid) =
        none →
      ∃ e, (get_recommendations_for_collection_page cap db cache uid cid
          ob od page size).1 = .error e ∧
        ∀ k v t, Eff.cacheSet k v t ∉
          (get_recommendations_for_collection_page cap db cache uid cid
            ob od page size).2) ∧
    resolve_ttl none none none = none ∧
    (∀ (cap : Nat) (db : DB) (ids : List Int)
       (ob : RecommendationOrderField) (od : OrderDirection)
       (page size : Nat) (k : String) (v : List ScoredRec)
       (t : Option Nat),
      Eff.cacheGet k ∉
        (get_recommendations_for_query_list_page cap db ids ob od page
          size).2 ∧
      Eff.cacheSet k v t ∉
        (get_recommendations_for_query_list_page cap db ids ob od page
          size).2) := by
  refine ⟨?_, ?_, rfl, ?_⟩
  · intro cap db cache uid cid ob od page size own items0 hown hcache
    unfold get_recommendations_for_collection_page
    rw [hown]
    simp only [hcache]
  · intro cap db cache uid cid ob od page size own hown hcache
    obtain ⟨e0, he0⟩ := gen_collection_error cap db uid cid
    have hshape := gen_collection_trace_shape cap db uid cid
    rcases hp : generate_recommendations_for_collection cap db uid cid
      with ⟨res, tr⟩
    rw [hp] at he0 hshape
    cases res with
    | ok r => exact absurd he0 (by simp)
    | error e =>
        have heq : get_recommendations_for_collection_page cap db cache
            uid cid ob od page size =
          (.error e,
           [Eff.ownershipQuery uid cid,
            Eff.cacheGet (build_recommendations_cache_key uid cid)] ++
             tr) := by
          unfold get_recommendations_for_collection_page
          rw [hown]
          simp only [hcache, hp]
        refine ⟨e, by rw [heq], ?_⟩
        intro k v t hmem
        rw [heq] at hmem
        rcases List.mem_append.mp hmem with h | h
        · simp at h
        · rcases hshape _ h with h1 | ⟨s, h1⟩ <;> simp at h1
  · intro cap db ids ob od page size k v t
    have hshape : ∀ e ∈ (get_recommendations_for_query_list_page cap db
        ids ob od page size).2, ∃ s, e = Eff.profileBuild s := by
      unfold get_recommendations_for_query_list_page
      by_cases hids : ids.isEmpty
      · simp [hids]
      · rw [Bool.not_eq_true] at hids
        simp only [hids, Bool.false_eq_true, if_false]
        have hgen := gen_list_trace_shape cap db (pySetDedup ids)
        rcases hp : generate_recommendations_for_list cap db
          (pySetDedup ids) with ⟨res, tr⟩
        rw [hp] at hgen
        cases res with
        | error e => exact hgen
        | ok r => exact hgen
    constructor
    · intro hmem
      obtain ⟨s, h⟩ := hshape _ hmem
      simp at h
    · intro hmem
      obtain ⟨s, h⟩ := hshape _ hmem
      simp at h

theorem claim_C9_witness :
    get_recommendations_for_collection_page 100 dbScenario
        [("recommendations:u:1", [recScenario])] "u" 1 .score .desc 1 20 =
      (.ok { total_results := 1, page := 1, size := 20,
             items := [recScenario], seed_total := none,
             seed_used := none, seed_truncated := none },
       [Eff.ownershipQuery "u" 1, Eff.cacheGet "recommendations:u:1"]) ∧
    (∃ e, (get_recommendations_for_collection_page 100 dbScenario [] "u"
        1 .score .desc 1 20).1 = .error e ∧
      ∀ k v t, Eff.cacheSet k v t ∉
        (get_recommendations_for_collection_page 100 dbScenario [] "u" 1
          .score .desc 1 20).2) ∧
    (∀ k v t, Eff.cacheSet k v t ∉
      (get_recommendations_for_query_list_page 100 db0 [5] .score .desc
        1 20).2) := by
  refine ⟨?_, ?_, ?_⟩
  · have h := claim_C9_read_through_but_never_stores.1 100 dbScenario
      [("recommendations:u:1", [recScenario])] "u" 1 .score .desc 1 20 1
      [recScenario] rfl rfl
    rw [h]
    rfl
  · exact claim_C9_read_through_but_never_stores.2.1 100 dbScenario []
      "u" 1 .score .desc 1 20 1 rfl rfl
  · intro k v t
    exact (claim_C9_read_through_but_never_stores.2.2.2 100 db0 [5]
      .score .desc 1 20 k v t).2


/-- Every entry of a completed scorer run is the successful scoring of one
input candidate against the profile, with the request-level rating
average. -/
theorem scorer_mem_eq {db : DB} {cands : List Manga} {mp : ProfileDict}
    {scored : List ScoredRec} {e : ScoredRec}
    (h : get_scored_recommendations db cands mp = .ok scored)
    (he : e ∈ scored) :
    ∃ m ∈ cands, ∃ aY,
      scoreCandidate db mp (avgRatingOf mp) aY m = .ok e := by
  rcases scorer_ok_cases h with ⟨_, rfl⟩ | ⟨years, ys, hy, hf, hmap, rfl⟩
  · exact absurd he (List.not_mem_nil e)
  · rw [mem_pySort] at he
    obtain ⟨m, hm, hsm⟩ :=
      forall₂_mem_right (mapExcept_ok_forall₂ hmap) e he
    exact ⟨m, hm, avgYearOf years, hsm⟩

/-- A candidate with no attribute overlap, a falsy rating pair, and no
publication date is scored successfully with every term zero. -/
theorem scoreCandidate_zero (db : DB) (mp : ProfileDict) (aR : Option ℚ)
    (aY : Option Int) (m : Manga)
    (hg : ∀ g ∈ mangaAttrSet db.manga_genre m.manga_id,
      counterGet mp.genres g = 0)
    (ht : ∀ t ∈ mangaAttrSet db.manga_tag m.manga_id,
      counterGet mp.tags t = 0)
    (hd : ∀ d ∈ mangaAttrSet db.manga_demographic m.manga_id,
      counterGet mp.demographics d = 0)
    (ha : ((mangaAttrSet db.manga_author m.manga_id).any
      (fun a => mp.authors.contains a)) = false)
    (hr : (truthyNum m.external_average_rating && truthyNum aR) = false)
    (hy : m.published_date = none) :
    scoreCandidate db mp aR aY m =
      .ok { manga_id := m.manga_id, title := m.title,
            external_average_rating := m.external_average_rating,
            cover_image_url := m.cover_image_url, score := 0,
            details :=
              { genre_score := 0, tag_score := 0, demo_score := 0,
                author_score := 0, rating_score := 0,
                year_score := 0 } } := by
  have hrz : rating_score_of m aR = 0 := by
    unfold rating_score_of
    rw [hr]
    simp
  have h1 : ((mangaAttrSet db.manga_genre m.manga_id).map
      (fun g => counterGet mp.genres g)).sum = 0 :=
    List.sum_eq_zero (by
      intro x hx
      obtain ⟨g, hgm, rfl⟩ := List.mem_map.mp hx
      exact hg g hgm)
  have h2 : ((mangaAttrSet db.manga_tag m.manga_id).map
      (fun t => counterGet mp.tags t)).sum = 0 :=
    List.sum_eq_zero (by
      intro x hx
      obtain ⟨t, htm, rfl⟩ := List.mem_map.mp hx
      exact ht t htm)
  have h3 : ((mangaAttrSet db.manga_demographic m.manga_id).map
      (fun d => counterGet mp.demographics d)).sum = 0 :=
    List.sum_eq_zero (by
      intro x hx
      obtain ⟨d, hdm, rfl⟩ := List.mem_map.mp hx
      exact hd d hdm)
  rw [scoreCandidate_eq, if_neg (by rw [hrz]; exact lt_irrefl 0)]
  rw [h1, h2, h3, hrz, hy,
    show (mangaAttrSet db.manga_author m.manga_id).any
      (fun a => mp.authors.contains a) = false from ha]
  norm_num [pyRound2_zero, Except.ok.injEq, ScoredRec.mk.injEq,
    ScoreDetails.mk.injEq]

/-- C7: a successful scorer run is sorted descending by score, produces
exactly one entry per input candidate (the output manga ids are a
permutation of the input manga ids — nothing is dropped), and a candidate
with no genre/tag/demographic count overlap, no author overlap and null
rating/year data scores exactly 0.0 in total (all six terms zero) yet
still appears in the output. -/
theorem claim_C7_sorted_complete_null_safe :
    (∀ (db : DB) (cands : List Manga) (mp : ProfileDict)
       (scored : List ScoredRec),
      get_scored_recommendations db cands mp = .ok scored →
      scored.Pairwise (fun a b => b.score ≤ a.score)) ∧
    (∀ (db : DB) (cands : List Manga) (mp : ProfileDict)
       (scored : List ScoredRec),
      get_scored_recommendations db cands mp = .ok scored →
      List.Perm (scored.map (fun e => e.manga_id))
        (cands.map (fun m => m.manga_id))) ∧
    (∀ (db : DB) (cands : List Manga) (mp : ProfileDict)
       (scored : List ScoredRec) (m : Manga),
      get_scored_recommendations db cands mp = .ok scored →
      m ∈ cands →
      (∀ g ∈ mangaAttrSet db.manga_genre m.manga_id,
        counterGet mp.genres g = 0) →
      (∀ t ∈ mangaAttrSet db.manga_tag m.manga_id,
        counterGet mp.tags t = 0) →
      (∀ d ∈ mangaAttrSet db.manga_demographic m.manga_id,
        counterGet mp.demographics d = 0) →
      ((mangaAttrSet db.manga_author m.manga_id).any
        (fun a => mp.authors.contains a)) = false →
      m.external_average_rating = none → m.published_date = none →
      ∃ e ∈ scored, e.manga_id = m.manga_id ∧ e.score = 0 ∧
        e.details.genre_score = 0 ∧ e.details.tag_score = 0 ∧
        e.details.demo_score = 0 ∧ e.details.author_score = 0 ∧
        e.details.rating_score = 0 ∧ e.details.year_score = 0) := by
  refine ⟨?_, ?_, ?_⟩
  · intro db cands mp scored h
    rcases scorer_ok_cases h with ⟨_, rfl⟩ |
      ⟨years, ys, hy, hf, hmap, rfl⟩
    · exact List.Pairwise.nil
    · exact pairwise_pySort_score ys
  · intro db cands mp scored h
    rcases scorer_ok_cases h with ⟨rfl, rfl⟩ |
      ⟨years, ys, hy, hf, hmap, rfl⟩
    · exact List.Perm.refl _
    · have hperm := (pySort_perm (fun x y => decide (x.score < y.score))
        ys).map (fun e => e.manga_id)
      refine hperm.trans ?_
      have heq : ys.map (fun e => e.manga_id) =
          cands.map (fun m => m.manga_id) := by
        refine forall₂_map_eq _ _ ?_ (mapExcept_ok_forall₂ hmap)
        intro a b hb
        exact (scoreCandidate_ok_fields hb).1
      rw [heq]
  · intro db cands mp scored m h hm hg ht hd ha hr hy
    rcases scorer_ok_cases h with ⟨rfl, rfl⟩ |
      ⟨years, ys, hyy, hf, hmap, rfl⟩
    · exact absurd hm (List.not_mem_nil m)
    · obtain ⟨b, hb, hsb⟩ :=
        forall₂_mem_left (mapExcept_ok_forall₂ hmap) m hm
      rw [scoreCandidate_zero db mp (avgRatingOf mp) (avgYearOf years) m
        hg ht hd ha (by rw [hr]; rfl) hy] at hsb
      obtain rfl := (Except.ok.injEq _ _).mp hsb
      exact ⟨_, (mem_pySort _ _ _).mpr hb,
        rfl, rfl, rfl, rfl, rfl, rfl, rfl, rfl⟩

theorem scorer_zero_example :
    get_scored_recommendations db0 [mZero] mpEmpty = .ok [zeroRec] := by
  have hz : scoreCandidate db0 mpEmpty (avgRatingOf mpEmpty)
      (avgYearOf []) mZero = .ok zeroRec := by
    rw [scoreCandidate_zero db0 mpEmpty (avgRatingOf mpEmpty)
      (avgYearOf []) mZero (by decide) (by decide) (by decide) (by decide)
      rfl rfl]
    rfl
  unfold get_scored_recommendations
  rw [show db0.fails = false from rfl,
    show mpEmpty.years = some [] from rfl]
  simp only [List.isEmpty_cons, Bool.false_eq_true, if_false, mapExcept,
    hz]
  rfl

theorem claim_C7_witness :
    ([zeroRec].Pairwise (fun a b => b.score ≤ a.score)) ∧
    List.Perm ([zeroRec].map (fun e => e.manga_id))
      ([mZero].map (fun m => m.manga_id)) ∧
    (∃ e ∈ [zeroRec], e.manga_id = mZero.manga_id ∧ e.score = 0 ∧
      e.details.genre_score = 0 ∧ e.details.tag_score = 0 ∧
      e.details.demo_score = 0 ∧ e.details.author_score = 0 ∧
      e.details.rating_score = 0 ∧ e.details.year_score = 0) :=
  ⟨claim_C7_sorted_complete_null_safe.1 db0 [mZero] mpEmpty [zeroRec]
      scorer_zero_example,
   claim_C7_sorted_complete_null_safe.2.1 db0 [mZero] mpEmpty [zeroRec]
      scorer_zero_example,
   claim_C7_sorted_complete_null_safe.2.2 db0 [mZero] mpEmpty [zeroRec]
      mZero scorer_zero_example (by decide) (by decide) (by decide)
      (by decide) (by decide) rfl rfl⟩

theorem avgRatingOf_mpR3 : avgRatingOf mpR3 = some 3 := by
  simp only [avgRatingOf, mpR3]
  norm_num

/-- C6 counterexample: candidate `mRate0` has an external rating
(`some 0`) and the seed average exists (`some 3`), so the claim's formula
gives `max 0 (5 − |0 − 3|) = 2`; but the code's truthiness test
(`if manga.external_average_rating and avg_rating`) treats the rating
`0.0` as missing and yields `rating_score = 0`. -/
theorem claim_C6_counterexample :
    mRate0.external_average_rating = some 0 ∧
    avgRatingOf mpR3 = some 3 ∧
    get_scored_recommendations db0 [mRate0] mpR3 = .ok [recRate0] ∧
    recRate0.details.rating_score = 0 ∧
    max (0 : ℚ) (5 - |(0 : ℚ) - 3|) = 2 := by
  have hz : scoreCandidate db0 mpR3 (avgRatingOf mpR3)
      (avgYearOf []) mRate0 = .ok recRate0 := by
    rw [scoreCandidate_zero db0 mpR3 (avgRatingOf mpR3)
      (avgYearOf []) mRate0 (by decide) (by decide) (by decide)
      (by decide) ?_ rfl]
    · rfl
    · rw [avgRatingOf_mpR3]
      simp [truthyNum, mRate0]
  refine ⟨rfl, avgRatingOf_mpR3, ?_, rfl, by norm_num [abs_of_nonpos]⟩
  unfold get_scored_recommendations
  rw [show db0.fails = false from rfl,
    show mpR3.years = some [] from rfl]
  simp only [List.isEmpty_cons, Bool.false_eq_true, if_false, mapExcept,
    hz]
  rfl

/-- C6 (amended): the code's rating term is `max(0, 5 − |r − avg|)` under
a Python-truthiness guard (a stored rating of `0.0` or a zero average
counts as missing) and `0` otherwise, and a rating at distance ≥ 5 from
the average does yield `0`; but the claimed `5.0` boundary is
unrealizable: whenever the rating term is positive — in particular when a
candidate's nonzero rating equals the seed average, where the formula
gives `5` — the scoring step raises the `float + Decimal` `TypeError`
instead of returning that value, and every entry of a completed scorer
run has `details.rating_score = 0`. -/
theorem claim_C6_amended_rating_term :
    (∀ (m : Manga) (aR : Option ℚ),
      rating_score_of m aR =
        (if truthyNum m.external_average_rating && truthyNum aR then
          max 0 (5 - |m.external_average_rating.getD 0 - aR.getD 0|)
        else 0)) ∧
    (∀ (m : Manga) (aR : Option ℚ) (r a : ℚ),
      m.external_average_rating = some r → aR = some a → 5 ≤ |r - a| →
      rating_score_of m aR = 0) ∧
    (∀ (m : Manga) (aR : Option ℚ) (r : ℚ),
      m.external_average_rating = some r → aR = some r → r ≠ 0 →
      rating_score_of m aR = 5) ∧
    (∀ (db : DB) (mp : ProfileDict) (aR : Option ℚ) (aY : Option Int)
       (m : Manga), 0 < rating_score_of m aR →
      scoreCandidate db mp aR aY m = .error .typeError) ∧
    (∀ (db : DB) (cands : List Manga) (mp : ProfileDict)
       (scored : List ScoredRec) (e : ScoredRec),
      get_scored_recommendations db cands mp = .ok scored → e ∈ scored →
      e.details.rating_score = 0) := by
  refine ⟨fun m aR => rfl, ?_, ?_, ?_, ?_⟩
  · intro m aR r a hm ha hdist
    unfold rating_score_of
    rw [hm, ha]
    by_cases hz : r ≠ 0 ∧ a ≠ 0
    · simp only [truthyNum, Option.getD_some]
      rw [if_pos (by simp [hz.1, hz.2])]
      rw [max_eq_left (by linarith)]
    · have hfalse : (truthyNum (some r) && truthyNum (some a)) =
          false := by
        simp only [truthyNum]
        rcases not_and_or.mp hz with h | h <;>
          simp [not_not.mp (by simpa using h)]
      rw [hfalse]
      simp
  · intro m aR r hm ha hr
    unfold rating_score_of
    rw [hm, ha]
    simp only [truthyNum, Option.getD_some]
    rw [if_pos (by simp [hr])]
    simp
  · intro db mp aR aY m hpos
    rw [scoreCandidate_eq, if_pos hpos]
  · intro db cands mp scored e h he
    obtain ⟨mm, hmm, aY, hok⟩ := scorer_mem_eq h he
    have hf := scoreCandidate_ok_fields hok
    rw [hf.2.2.2.2.2.1, hf.2.2.2.2.2.2.1]

theorem claim_C6_amended_witness :
    rating_score_of mangaA (some 1) = 0 ∧
    rating_score_of mangaA (some 8) = 5 ∧
    scoreCandidate db0 mpR3 (some 8) none mangaA = .error .typeError ∧
    zeroRec.details.rating_score = 0 :=
  ⟨claim_C6_amended_rating_term.2.1 mangaA (some 1) 8 1 rfl rfl
      (by norm_num),
   claim_C6_amended_rating_term.2.2.1 mangaA (some 8) 8 rfl rfl
      (by norm_num),
   claim_C6_amended_rating_term.2.2.2.1 db0 mpR3 (some 8) none mangaA
      (by
        rw [claim_C6_amended_rating_term.2.2.1 mangaA (some 8) 8 rfl rfl
          (by norm_num)]
        norm_num),
   claim_C6_amended_rating_term.2.2.2.2 db0 [mZero] mpEmpty [zeroRec]
      zeroRec scorer_zero_example (List.mem_singleton.mpr rfl)⟩


/-- C1: every entry of a completed scorer run does decompose into the six
claimed terms — `genre_score` = (sum of profile genre-counts over the
candidate's genres) × 2, `tag_score` = (…) × 3, `demo_score` = (…) × 1.25,
`author_score` = 3 iff the author sets intersect else 0 — with the output
`score` equal to the term sum rounded to 2 decimals and `details` keeping
the unrounded terms.  But the spec's end-to-end scenario never yields its
claimed recommendation: the seed resolves to `[1]`, the profile matches,
the selector would return the candidate, and the candidate's rating term
is `5` — positive — so the scorer raises the `float + Decimal`
`TypeError`, and the collection generator independently dies at its
mis-keyworded `db=` call; the pipeline returns an error, never the scored
item with total `13.25`. -/
theorem claim_C1_score_formula_vs_crash :
    (∀ (db : DB) (cands : List Manga) (mp : ProfileDict)
       (scored : List ScoredRec) (e : ScoredRec),
      get_scored_recommendations db cands mp = .ok scored →
      e ∈ scored →
      ∃ m ∈ cands, e.manga_id = m.manga_id ∧
        e.details.genre_score =
          (((mangaAttrSet db.manga_genre m.manga_id).map
            (fun g => counterGet mp.genres g)).sum : ℚ) * 2 ∧
        e.details.tag_score =
          (((mangaAttrSet db.manga_tag m.manga_id).map
            (fun t => counterGet mp.tags t)).sum : ℚ) * 3 ∧
        e.details.demo_score =
          (((mangaAttrSet db.manga_demographic m.manga_id).map
            (fun d => counterGet mp.demographics d)).sum : ℚ) * (5/4) ∧
        e.details.author_score =
          (if (mangaAttrSet db.manga_author m.manga_id).any
              (fun a => mp.authors.contains a) then (3 : ℚ) else 0) ∧
        e.score = pyRound2
          (e.details.genre_score + e.details.tag_score +
           e.details.demo_score + e.details.author_score +
           e.details.rating_score + e.details.year_score)) ∧
    get_manga_ids_in_user_collection dbScenario "u" 1 = [1] ∧
    get_metadata_profile_for_collection dbScenario [1] = mpScenario ∧
    get_candidate_manga dbScenario [1] [10] [] [20] 2000 = [mangaC] ∧
    rating_score_of mangaC (avgRatingOf mpScenario) = 5 ∧
    get_scored_recommendations dbScenario [mangaC] mpScenario =
      .error .typeError ∧
    generate_recommendations_for_collection 100 dbScenario "u" 1 =
      (.error .typeError,
       [.collectionIdsQuery "u" 1, .profileBuild [1]]) ∧
    (∀ r, (generate_recommendations_for_collection 100 dbScenario
      "u" 1).1 ≠ .ok r) := by
  refine ⟨?_, scenario_seed_ids, scenario_profile, scenario_candidates,
    ?_, scenario_scorer_crash, scenario_generator_crash, ?_⟩
  · intro db cands mp scored e h he
    obtain ⟨m, hm, aY, hok⟩ := scorer_mem_eq h he
    have hf := scoreCandidate_ok_fields hok
    exact ⟨m, hm, hf.1, hf.2.1, hf.2.2.1, hf.2.2.2.1, hf.2.2.2.2.1,
      hf.2.2.2.2.2.2.2⟩
  · rw [scenario_avg_rating]
    exact scenario_rating
  · intro r hok
    rw [scenario_generator_crash] at hok
    exact absurd hok (by simp)

theorem claim_C1_witness :
    (∃ m ∈ [mZero], zeroRec.manga_id = m.manga_id ∧
      zeroRec.details.genre_score =
        (((mangaAttrSet db0.manga_genre m.manga_id).map
          (fun g => counterGet mpEmpty.genres g)).sum : ℚ) * 2 ∧
      zeroRec.details.tag_score =
        (((mangaAttrSet db0.manga_tag m.manga_id).map
          (fun t => counterGet mpEmpty.tags t)).sum : ℚ) * 3 ∧
      zeroRec.details.demo_score =
        (((mangaAttrSet db0.manga_demographic m.manga_id).map
          (fun d => counterGet mpEmpty.demographics d)).sum : ℚ) *
          (5/4) ∧
      zeroRec.details.author_score =
        (if (mangaAttrSet db0.manga_author m.manga_id).any
            (fun a => mpEmpty.authors.contains a) then (3 : ℚ)
         else 0) ∧
      zeroRec.score = pyRound2
        (zeroRec.details.genre_score + zeroRec.details.tag_score +
         zeroRec.details.demo_score + zeroRec.details.author_score +
         zeroRec.details.rating_score + zeroRec.details.year_score)) ∧
    (generate_recommendations_for_collection 100 dbScenario "u" 1).1 ≠
      .ok { items := [recScenario], seed_total := 1, seed_used := 1,
            seed_truncated := false } :=
  ⟨claim_C1_score_formula_vs_crash.1 db0 [mZero] mpEmpty [zeroRec]
      zeroRec scorer_zero_example (List.mem_singleton.mpr rfl),
   claim_C1_score_formula_vs_crash.2.2.2.2.2.2.2 _⟩

end MangaRecon
